import Mathlib

/-!
# Verification of `src/main/tools/fake-sandbox-exec.c`

The program is:

```c
int main(int ac, char *av[]) {
  int ch;
  while ((ch = getopt(ac, av, "f:n:p:D:")) != -1) {
    continue;
  }
  ac -= optind;
  av += optind;
  return execvp(av[0], av);
}
```

We embed the argument vector as a `List (List Char)` (each token a list of
characters) and the `getopt` loop as a function returning the suffix
`av + optind` left after the loop.  `getopt` is the C library routine,
modelled here from its POSIX specification with the option string
`"f:n:p:D:"` and no argument permutation (the program targets the BSD/macOS
libc, which stops at the first non-option argument, exactly as POSIX
describes):

* a token that does not begin with `'-'`, or is the single-character token
  `"-"`, stops the scan and is not consumed;
* the token `"--"` is consumed and stops the scan;
* otherwise the token is a cluster `-c₁c₂…`: each character is examined in
  turn; a character in `{f, n, p, D}` takes an option-argument — the rest of
  the cluster if non-empty, else the entire next token (consumed blindly) —
  and any other character is reported as an illegal option (`'?'`) and
  skipped, scanning continuing inside the cluster;
* a recognized character at the very end of the vector with no value left
  is reported (`'?'`) with `optind` advanced past the end, and the loop
  then terminates with nothing remaining.

After the loop the program unconditionally calls `execvp(av[0], av)`.  When
the filtered vector is empty, `av[0]` is the argv array's terminating null
pointer.  `main` contains no other statement: if `execvp` returns (launch
failure) the program prints nothing and returns `execvp`'s value `-1`.
-/

namespace FakeSandboxExec

/-- The option characters of the `getopt` option string `"f:n:p:D:"`; each is
followed by `':'` there, so each takes a required option-argument. -/
def optChars : List Char := ['f', 'n', 'p', 'D']

/-- Scanning one option cluster (the characters of a token after the leading
`'-'`, minus anything already consumed): returns how many *following* tokens
the cluster consumes (`0` or `1`).  A recognized character with a non-empty
remainder takes that remainder as its attached value (no extra token); a
recognized character ending the token takes the next token; an unrecognized
character is skipped (`getopt` returns `'?'`) and scanning continues within
the cluster. -/
def scanCluster : List Char → Nat
  | [] => 0
  | c :: place =>
    if c ∈ optChars then
      if place = [] then 1 else 0
    else
      scanCluster place

/-- The `while (getopt(ac, av, "f:n:p:D:") != -1)` loop, acting on the tokens
from index `optind = 1` onwards; the result is the suffix `av + optind` that
`main` hands to `execvp`.  Cases mirror POSIX `getopt`: a non-option token
(or the lone `"-"`) stops the scan unconsumed; `"--"` is consumed and stops
the scan; an option cluster is consumed together with `scanCluster`-many
following tokens (a cluster demanding a value at the very end of the vector
leaves `optind` one past the end, hence the empty result). -/
def stripFlags : List (List Char) → List (List Char)
  | [] => []
  | t :: rest =>
    match t with
    | c0 :: c1 :: place =>
      if c0 = '-' then
        if c1 = '-' ∧ place = [] then
          rest
        else if scanCluster (c1 :: place) = 0 then
          stripFlags rest
        else
          match rest with
          | [] => []
          | _ :: rest2 => stripFlags rest2
      else t :: rest
    | _ => t :: rest

/-- The filter as `main` applies it: `getopt` starts at `optind = 1`, never
inspecting `av[0]` (the program name), and `main` then uses `av + optind`. -/
def mainFilter (argv : List (List Char)) : List (List Char) :=
  stripFlags (argv.drop 1)

/-- The single system call `main` performs: `execvp(av[0], av)` on the
filtered vector.  When the filtered vector is empty, `av[0]` is the argv
array's null terminator, so `execvp` receives a null file argument. -/
inductive ExecCall where
  | exec (file : List Char) (argv : List (List Char))
  | execNull
  deriving DecidableEq

/-- What `main` does with an argument vector: filter it, then call
`execvp(av[0], av)` — unconditionally; there is no usage check before the
call. -/
def runMain (argv : List (List Char)) : ExecCall :=
  match mainFilter argv with
  | [] => ExecCall.execNull
  | c :: cs => ExecCall.exec c (c :: cs)

/-- The observable behaviour of `main`, from line 11, `return execvp(av[0], av);`:
the exec attempt, and — should `execvp` return, i.e. the launch fail — the
value `main` returns (`execvp`'s error return `-1`) and the diagnostics the
program itself then writes (none: `main` has no statement after the call). -/
structure MainBehavior where
  call : ExecCall
  failExit : Int
  failMessages : List (List Char)
  deriving DecidableEq

/-- `main`'s complete observable behaviour on an argument vector. -/
def runMainFull (argv : List (List Char)) : MainBehavior :=
  { call := runMain argv, failExit := -1, failMessages := [] }

/-- A token is option-like when `getopt` would try to parse it as options:
it begins with `'-'` and has at least one further character. -/
def isOptionLike : List Char → Bool
  | c0 :: _ :: _ => c0 = '-'
  | _ => false

/-- A flag given with its value as a separate token, as two tokens. -/
def flagPair (p : Char × List Char) : List (List Char) :=
  [['-', p.1], p.2]

/-- A sequence of flag+value pairs, flattened into a token list. -/
def flagPairs (ps : List (Char × List Char)) : List (List Char) :=
  (ps.map flagPair).flatten

/-- None of the four recognized option characters is the dash itself. -/
theorem ne_dash_of_mem_optChars {c : Char} (hc : c ∈ optChars) : c ≠ '-' := by
  simp only [optChars, List.mem_cons, List.not_mem_nil, or_false] at hc
  rcases hc with rfl | rfl | rfl | rfl <;> decide

/-- A token that is not option-like stops the scan and is kept. -/
theorem stripFlags_cons_of_not_optionLike {t : List Char} (h : isOptionLike t = false)
    (rest : List (List Char)) : stripFlags (t :: rest) = t :: rest := by
  match t with
  | [] => rfl
  | [c] => rfl
  | c0 :: c1 :: place =>
    have h0 : ¬ c0 = '-' := by simpa [isOptionLike] using h
    rw [stripFlags.eq_def]
    simp [h0]

/-- A recognized flag given as its own token consumes the next token as its
value, whatever that token is. -/
theorem stripFlags_flag_sep {c : Char} (hc : c ∈ optChars) (v : List Char)
    (rest : List (List Char)) :
    stripFlags (['-', c] :: v :: rest) = stripFlags rest := by
  have h1 : ¬ c = '-' := ne_dash_of_mem_optChars hc
  rw [stripFlags.eq_def]
  simp [scanCluster, h1, hc]

/-- A leading run of recognized flag+value pairs is consumed whole. -/
theorem stripFlags_flagPairs_append {ps : List (Char × List Char)}
    (hps : ∀ p ∈ ps, p.1 ∈ optChars) (tail : List (List Char)) :
    stripFlags (flagPairs ps ++ tail) = stripFlags tail := by
  induction ps with
  | nil => simp [flagPairs]
  | cons p ps ih =>
    have hp : p.1 ∈ optChars := hps p (by simp)
    have hps2 : ∀ q ∈ ps, q.1 ∈ optChars := fun q hq => hps q (by simp [hq])
    have hflat : flagPairs (p :: ps) ++ tail = ['-', p.1] :: p.2 :: (flagPairs ps ++ tail) := by
      simp [flagPairs, flagPair]
    rw [hflat, stripFlags_flag_sep hp, ih hps2]

/-- The filter only removes a prefix: its output is a `drop` of its input. -/
theorem stripFlags_eq_drop (l : List (List Char)) : ∃ n, stripFlags l = l.drop n := by
  suffices hstrong : ∀ N, ∀ l : List (List Char), l.length ≤ N →
      ∃ n, stripFlags l = l.drop n from hstrong l.length l le_rfl
  intro N
  induction N with
  | zero =>
    intro l hl
    have hnil : l = [] := List.eq_nil_of_length_eq_zero (Nat.le_zero.mp hl)
    subst hnil
    exact ⟨0, rfl⟩
  | succ N ih =>
    intro l hl
    match l with
    | [] => exact ⟨0, rfl⟩
    | t :: rest =>
      match t with
      | [] => exact ⟨0, rfl⟩
      | [c] => exact ⟨0, rfl⟩
      | c0 :: c1 :: place =>
        by_cases h0 : c0 = '-'
        · subst h0
          by_cases h1 : c1 = '-' ∧ place = []
          · refine ⟨1, ?_⟩
            obtain ⟨rfl, rfl⟩ := h1
            rw [stripFlags.eq_def]
            simp
          · by_cases h2 : scanCluster (c1 :: place) = 0
            · obtain ⟨n, hn⟩ := ih rest (by simp at hl; omega)
              exact ⟨n + 1, by rw [stripFlags.eq_def]; simp [h1, h2, hn]⟩
            · match rest with
              | [] => exact ⟨1, by rw [stripFlags.eq_def]; simp [h1, h2]⟩
              | v :: rest2 =>
                obtain ⟨n, hn⟩ := ih rest2 (by simp at hl; omega)
                exact ⟨n + 2, by rw [stripFlags.eq_def]; simp [h1, h2, hn]⟩
        · exact ⟨0, by rw [stripFlags.eq_def]; simp [h0]⟩

/-- The filter output is a suffix of its input. -/
theorem stripFlags_suffix (l : List (List Char)) : stripFlags l <:+ l := by
  obtain ⟨n, hn⟩ := stripFlags_eq_drop l
  rw [hn]
  exact List.drop_suffix n l

/-- When the scan looks at an option-like token it consumes that token:
the result is already a suffix of the remaining tokens. -/
theorem stripFlags_cons_of_optionLike {t : List Char} (h : isOptionLike t = true)
    (rest : List (List Char)) : stripFlags (t :: rest) <:+ rest := by
  match t with
  | c0 :: c1 :: place =>
    have h0 : c0 = '-' := by simpa [isOptionLike] using h
    subst h0
    by_cases h1 : c1 = '-' ∧ place = []
    · have heq : stripFlags (('-' :: c1 :: place) :: rest) = rest := by
        obtain ⟨rfl, rfl⟩ := h1
        rw [stripFlags.eq_def]
        simp
      rw [heq]
    · by_cases h2 : scanCluster (c1 :: place) = 0
      · have heq : stripFlags (('-' :: c1 :: place) :: rest) = stripFlags rest := by
          rw [stripFlags.eq_def]
          simp [h1, h2]
        rw [heq]
        exact stripFlags_suffix rest
      · match rest with
        | [] =>
          have heq : stripFlags [('-' :: c1 :: place)] = [] := by
            rw [stripFlags.eq_def]
            simp [h1, h2]
          rw [heq]
        | v :: rest2 =>
          have heq : stripFlags (('-' :: c1 :: place) :: v :: rest2) = stripFlags rest2 := by
            rw [stripFlags.eq_def]
            simp [h1, h2]
          rw [heq]
          exact (stripFlags_suffix rest2).trans (List.suffix_cons v rest2)

/-- C1: for every argument vector consisting of the program name, then zero or
more recognized flag+value pairs (flags `-f`, `-n`, `-p`, `-D`, in any order,
any number of times), then a command name (a token the scanner does not read
as an option) and further arguments, the filter passes to the exec call
exactly the command name as argument zero followed by exactly the trailing
arguments, in original order, with no recognized flags or their values
remaining. -/
theorem C1_pairs_then_command_passthrough (prog : List Char)
    (ps : List (Char × List Char)) (cmd : List Char) (args : List (List Char))
    (hps : ∀ p ∈ ps, p.1 ∈ optChars) (hcmd : isOptionLike cmd = false) :
    runMain (prog :: (flagPairs ps ++ cmd :: args)) = ExecCall.exec cmd (cmd :: args) := by
  have h1 : mainFilter (prog :: (flagPairs ps ++ cmd :: args)) = cmd :: args := by
    unfold mainFilter
    simp only [List.drop_one, List.tail_cons]
    rw [stripFlags_flagPairs_append hps, stripFlags_cons_of_not_optionLike hcmd]
  unfold runMain
  rw [h1]

/-- Witness for C1 at `prog -f foo ls -la`: the pair `-f foo` is stripped and
`ls` is launched with `[ls, -la]`. -/
theorem C1_witness :
    runMain [['p','r','o','g'], ['-','f'], ['f','o','o'], ['l','s'], ['-','l','a']] =
      ExecCall.exec ['l','s'] [['l','s'], ['-','l','a']] :=
  C1_pairs_then_command_passthrough ['p','r','o','g'] [('f', ['f','o','o'])]
    ['l','s'] [['-','l','a']] (by decide) (by decide)

/-- C2: the claim says a missing command is detected as a usage error with no
launch attempted; the code has no such check — on `prog` alone the filtered
vector is empty and `main` still calls `execvp`, whose file argument is then
the argv array's null terminator. -/
theorem C2_no_command_still_execs :
    mainFilter [['p','r','o','g']] = [] ∧
      runMain [['p','r','o','g']] = ExecCall.execNull := by
  decide

/-- C3: the claim says a failed launch is reported with a diagnostic naming
the failed command; the code attempts the exec (here of `nope`, after
stripping `-f x`) and, if `execvp` returns, merely returns its `-1` (exit
status 255) while writing no diagnostic at all. -/
theorem C3_launch_failure_no_diagnostic :
    runMainFull [['p','r','o','g'], ['-','f'], ['x'], ['n','o','p','e']] =
      ⟨ExecCall.exec ['n','o','p','e'] [['n','o','p','e']], -1, []⟩ := by
  decide

/-- C4 counterexample: at `prog -- ls` the token `--` is consumed as an
end-of-options sentinel rather than passed through as the command name, so
`ls` (not `--`) is launched. -/
theorem C4_counterexample :
    mainFilter [['p','r','o','g'], ['-','-'], ['l','s']] = [['l','s']] ∧
      runMain [['p','r','o','g'], ['-','-'], ['l','s']] ≠
        ExecCall.exec ['-','-'] [['-','-'], ['l','s']] := by
  decide

/-- C4 amended: when `--` appears where a flag could appear it is treated as
an end-of-options sentinel: the scanner consumes it and stops, and everything
after it is passed through unchanged, the next token becoming the command
name. -/
theorem C4_dashdash_is_sentinel (prog : List Char) (ps : List (Char × List Char))
    (rest : List (List Char)) (hps : ∀ p ∈ ps, p.1 ∈ optChars) :
    mainFilter (prog :: (flagPairs ps ++ ['-','-'] :: rest)) = rest := by
  unfold mainFilter
  simp only [List.drop_one, List.tail_cons]
  rw [stripFlags_flagPairs_append hps, stripFlags.eq_def]
  simp

/-- Witness for C4 (amended) at `prog -f x -- ls`. -/
theorem C4_witness :
    mainFilter [['p','r','o','g'], ['-','f'], ['x'], ['-','-'], ['l','s']] = [['l','s']] :=
  C4_dashdash_is_sentinel ['p','r','o','g'] [('f', ['x'])] [['l','s']] (by decide)

/-- C5 counterexample: `-x` is not among the four recognized flags yet the
scan consumes it, and `-f` as the final token is consumed without any
value. -/
theorem C5_counterexample :
    (mainFilter [['p','r','o','g'], ['-','x'], ['c','m','d']] = [['c','m','d']] ∧
      mainFilter [['p','r','o','g'], ['-','x'], ['c','m','d']] ≠
        [['-','x'], ['c','m','d']]) ∧
    (mainFilter [['p','r','o','g'], ['-','f']] = [] ∧
      mainFilter [['p','r','o','g'], ['-','f']] ≠ [['-','f']]) := by
  decide

/-- C5 amended: each of the four recognized flags `-f`, `-n`, `-p`, `-D`
consumes exactly one value when one is available; but any other
single-character option token (other than a lone dash) is likewise consumed
by the scan, and a recognized flag that ends the argument vector is consumed
without a value. -/
theorem C5_option_set :
    (∀ c, c ∈ optChars →
      ∀ v rest, stripFlags (['-', c] :: v :: rest) = stripFlags rest) ∧
    (∀ c, c ∉ optChars → ¬ c = '-' →
      ∀ rest, stripFlags (['-', c] :: rest) = stripFlags rest) ∧
    (∀ c, c ∈ optChars → stripFlags [['-', c]] = []) := by
  refine ⟨fun c hc v rest => stripFlags_flag_sep hc v rest,
    fun c hc hcd rest => ?_, fun c hc => ?_⟩
  · rw [stripFlags.eq_def]
    simp [scanCluster, hc, hcd]
  · have hcd : ¬ c = '-' := ne_dash_of_mem_optChars hc
    rw [stripFlags.eq_def]
    simp [scanCluster, hc, hcd]

/-- Witness for C5 (amended): `-f` consumes the value `v` and nothing else. -/
theorem C5_witness :
    stripFlags [['-','f'], ['v'], ['c','m','d']] = stripFlags [['c','m','d']] :=
  C5_option_set.1 'f' (by decide) ['v'] [['c','m','d']]

/-- C6 counterexample: at `prog -x -f v cmd` the first token that is not a
recognized flag is `-x`, yet it and the later `-f v` pair are all consumed. -/
theorem C6_counterexample :
    mainFilter [['p','r','o','g'], ['-','x'], ['-','f'], ['v'], ['c','m','d']] =
        [['c','m','d']] ∧
      mainFilter [['p','r','o','g'], ['-','x'], ['-','f'], ['v'], ['c','m','d']] ≠
        [['-','x'], ['-','f'], ['v'], ['c','m','d']] := by
  decide

/-- C6 amended: flag scanning stops at the first token it examines that is
not option-like (a token not beginning with a dash, or a lone dash): from
such a token on nothing is consumed, even if a later token textually matches
a recognized flag; in particular `prog -p 8080 mytool arg1 arg2` launches
`mytool` with arguments `[mytool, arg1, arg2]`.  Option-like tokens that are
not recognized flags, and the sentinel `--`, are consumed too, so the scan
need not stop at the vector's first non-recognized-flag token. -/
theorem C6_scan_stops_at_non_option :
    (∀ t rest, isOptionLike t = false → stripFlags (t :: rest) = t :: rest) ∧
      runMain [['p','r','o','g'], ['-','p'], ['8','0','8','0'],
          ['m','y','t','o','o','l'], ['a','r','g','1'], ['a','r','g','2']] =
        ExecCall.exec ['m','y','t','o','o','l']
          [['m','y','t','o','o','l'], ['a','r','g','1'], ['a','r','g','2']] :=
  ⟨fun t rest h => stripFlags_cons_of_not_optionLike h rest, by decide⟩

/-- Witness for C6 (amended): once the scan reaches `cmd`, the later tokens
`-f v` are not consumed although they textually form a recognized flag pair. -/
theorem C6_witness :
    stripFlags [['c','m','d'], ['-','f'], ['v']] = [['c','m','d'], ['-','f'], ['v']] :=
  C6_scan_stops_at_non_option.1 ['c','m','d'] [['-','f'], ['v']] (by decide)

/-- C7 counterexample: the list `[--]` contains no recognized flag yet the
filter changes it (to `[]`); and on `[--, -f, v]` one application yields
`[-f, v]` while a second application strips the `-f v` pair, so running the
filter twice differs from running it once. -/
theorem C7_counterexample :
    (stripFlags [['-','-']] = [] ∧ stripFlags [['-','-']] ≠ [['-','-']]) ∧
    (stripFlags (stripFlags [['-','-'], ['-','f'], ['v']]) = [] ∧
      stripFlags (stripFlags [['-','-'], ['-','f'], ['v']]) ≠
        stripFlags [['-','-'], ['-','f'], ['v']]) := by
  decide

/-- C7 amended: on an argument list containing no option-like tokens the
filter is the identity, and hence applying it twice equals applying it once;
unrestricted idempotence fails because consuming a `--` sentinel can leave
option-like tokens in the output that a second run would strip. -/
theorem C7_identity_on_flag_free (l : List (List Char))
    (h : ∀ t ∈ l, isOptionLike t = false) :
    stripFlags l = l ∧ stripFlags (stripFlags l) = stripFlags l := by
  have h1 : stripFlags l = l := by
    match l with
    | [] => rfl
    | t :: rest => exact stripFlags_cons_of_not_optionLike (h t (by simp)) rest
  exact ⟨h1, by rw [h1, h1]⟩

/-- Witness for C7 (amended) on the flag-free list `[cmd, a1]`. -/
theorem C7_witness :
    stripFlags [['c','m','d'], ['a','1']] = [['c','m','d'], ['a','1']] ∧
      stripFlags (stripFlags [['c','m','d'], ['a','1']]) =
        stripFlags [['c','m','d'], ['a','1']] :=
  C7_identity_on_flag_free [['c','m','d'], ['a','1']] (by decide)

/-- C8: a recognized flag's value may be given as the next separate token or
attached within the same token; both spellings consume the same material and
the resulting filtered argument list is the same. -/
theorem C8_attached_eq_separate (c : Char) (v : List Char) (rest : List (List Char))
    (hc : c ∈ optChars) (hv : ¬ v = []) :
    stripFlags (('-' :: c :: v) :: rest) = stripFlags (['-', c] :: v :: rest) := by
  have h1 : ¬ c = '-' := ne_dash_of_mem_optChars hc
  rw [stripFlags_flag_sep hc, stripFlags.eq_def]
  simp [scanCluster, hc, hv, h1]

/-- Witness for C8: `-ffoo` and `-f foo` filter identically. -/
theorem C8_witness :
    stripFlags [['-','f','f','o','o'], ['c','m','d']] =
      stripFlags [['-','f'], ['f','o','o'], ['c','m','d']] :=
  C8_attached_eq_separate 'f' ['f','o','o'] [['c','m','d']] (by decide) (by decide)

/-- C9: when the final token of the vector is a recognized flag with no
following value and everything before it is recognized flag+value pairs,
scanning still terminates with that flag consumed (`getopt` reports the
missing value and leaves `optind` one past the end, without aborting the
loop) and the filtered argument list is empty. -/
theorem C9_trailing_flag_consumed (prog : List Char) (ps : List (Char × List Char))
    (c : Char) (hps : ∀ p ∈ ps, p.1 ∈ optChars) (hc : c ∈ optChars) :
    mainFilter (prog :: (flagPairs ps ++ [['-', c]])) = [] := by
  have h1 : ¬ c = '-' := ne_dash_of_mem_optChars hc
  unfold mainFilter
  simp only [List.drop_one, List.tail_cons]
  rw [stripFlags_flagPairs_append hps, stripFlags.eq_def]
  simp [scanCluster, hc, h1]

/-- Witness for C9 at `prog -n 3 -f`. -/
theorem C9_witness :
    mainFilter [['p','r','o','g'], ['-','n'], ['3'], ['-','f']] = [] :=
  C9_trailing_flag_consumed ['p','r','o','g'] [('n', ['3'])] 'f' (by decide) (by decide)

/-- C10: the flag scan terminates on every finite argument vector — the
filter is a total function whose output is always a suffix of its input —
and each iteration strictly advances the parse position: whenever the scan
examines an option-like token, the result is a suffix of the strictly
shorter list of remaining tokens. -/
theorem C10_scan_terminates_and_advances :
    (∀ l, stripFlags l <:+ l) ∧
      (∀ t rest, isOptionLike t = true → stripFlags (t :: rest) <:+ rest) :=
  ⟨stripFlags_suffix, fun _ rest h => stripFlags_cons_of_optionLike h rest⟩

/-- Witness for C10: scanning `-f v` advances past both tokens. -/
theorem C10_witness :
    stripFlags [['-','f'], ['v']] <:+ [['v']] :=
  C10_scan_terminates_and_advances.2 ['-','f'] [['v']] (by decide)

end FakeSandboxExec
